import Mathlib

/-!
Verification development for the resilient VICE MCP client
(`src/tools/resilience/vice_mcp_resilient.py`).

The Python module is shallowly embedded below:

* JSON values and Python argument values are inductive types
  (`Json`, `PyValue`); Python's `bool`-is-an-`int` subtlety is kept.
* The schema registry `TOOL_SCHEMAS`, the kind checker `_validate_type`
  and `validate_params` are translated directly.
* The reliability monitor is explicit state (`MonitorState`); the
  durable file append is abstracted by a `persist_ok : Bool` environment
  input (whether the `open`/`write` raises `OSError`); wall-clock
  timestamps and durations are not modelled (durations recorded by the
  call engine are 0).
* The dispatch/retry loop `_call_raw` is a fuel-indexed recursion that
  mirrors `for attempt in range(max_retries + 1)`; the HTTP transport is
  an oracle `Nat → Encoding → TransportResult` indexed by attempt number
  and chosen encoding, and `json.loads` applied to an inner text block
  is an oracle `String → Option Json`.  Delays and timeouts are exact
  rationals (`1.5 ** attempt` and `2 ** attempt` are exact in the
  source's binary floating point for the attempt counts involved).
-/

/-- A JSON value (numbers restricted to integers, which is all the
error-code classification in the source ever compares against). -/
inductive Json where
  | null : Json
  | bool (b : Bool) : Json
  | num (n : Int) : Json
  | str (s : String) : Json
  | arr (xs : List Json) : Json
  | obj (kvs : List (String × Json)) : Json

mutual

/-- Python `repr` of a decoded JSON value (element rendering inside
containers).  Exact text only matters where the source feeds
`str(err)` into an error message, a corner no claim depends on. -/
def pyRepr : Json → String
  | Json.null => "None"
  | Json.bool true => "True"
  | Json.bool false => "False"
  | Json.num n => toString n
  | Json.str s => "\x27" ++ s ++ "\x27"
  | Json.arr xs => "[" ++ pyReprList xs ++ "]"
  | Json.obj kvs => "\x7b" ++ pyReprObj kvs ++ "\x7d"

def pyReprList : List Json → String
  | [] => ""
  | [x] => pyRepr x
  | x :: xs => pyRepr x ++ ", " ++ pyReprList xs

def pyReprObj : List (String × Json) → String
  | [] => ""
  | [(k, v)] => "\x27" ++ k ++ "\x27: " ++ pyRepr v
  | (k, v) :: kvs => "\x27" ++ k ++ "\x27: " ++ pyRepr v ++ ", " ++ pyReprObj kvs

end

/-- Python `str` of a decoded JSON value (`str` on a string is the raw
string; on everything else it agrees with `repr`). -/
def pyStr : Json → String
  | Json.str s => s
  | j => pyRepr j

/-- `d.get(k)` on a decoded JSON object (`none` when the key is absent
or the value is not an object). -/
def jsonGet : Json → String → Option Json
  | Json.obj kvs, k => kvs.lookup k
  | _, _ => none

/-- A Python value supplied as a tool argument.  `vbool` is separate
from `vint` but the `isinstance` helpers below keep Python's
`bool <: int` subtyping. -/
inductive PyValue where
  | vint (n : Int) : PyValue
  | vfloat (q : ℚ) : PyValue
  | vbool (b : Bool) : PyValue
  | vstr (s : String) : PyValue
  | vlist (xs : List PyValue) : PyValue
  | vtuple (xs : List PyValue) : PyValue
  | vdict (kvs : List (String × PyValue)) : PyValue
  | vnone : PyValue

/-- `type(v).__name__` for the values above. -/
def pyTypeName : PyValue → String
  | PyValue.vint _ => "int"
  | PyValue.vfloat _ => "float"
  | PyValue.vbool _ => "bool"
  | PyValue.vstr _ => "str"
  | PyValue.vlist _ => "list"
  | PyValue.vtuple _ => "tuple"
  | PyValue.vdict _ => "dict"
  | PyValue.vnone => "NoneType"

/-- `isinstance(v, (int, float))`; `True`/`False` are `int` instances
in Python, so booleans pass this test. -/
def isinstance_int_or_float : PyValue → Bool
  | PyValue.vint _ => true
  | PyValue.vfloat _ => true
  | PyValue.vbool _ => true
  | _ => false

/-- `isinstance(v, bool)`. -/
def isinstance_bool : PyValue → Bool
  | PyValue.vbool _ => true
  | _ => false

/-- `isinstance(v, str)`. -/
def isinstance_str : PyValue → Bool
  | PyValue.vstr _ => true
  | _ => false

/-- `isinstance(v, (list, tuple))`. -/
def isinstance_list_or_tuple : PyValue → Bool
  | PyValue.vlist _ => true
  | PyValue.vtuple _ => true
  | _ => false

/-- `isinstance(v, dict)`. -/
def isinstance_dict : PyValue → Bool
  | PyValue.vdict _ => true
  | _ => false

-- JSON-RPC / MCP error codes (module constants).
def JSONRPC_PARSE_ERROR : Int := -32700
def JSONRPC_INVALID_REQUEST : Int := -32600
def JSONRPC_METHOD_NOT_FOUND : Int := -32601
def JSONRPC_INVALID_PARAMS : Int := -32602
def JSONRPC_INTERNAL_ERROR : Int := -32603

/-- Membership in `_PROTOCOL_ERROR_CODES = frozenset(range(-32799, -32599))`,
i.e. the codes `-32799 .. -32600`. -/
def isProtocolCode (code : Json) : Bool :=
  match code with
  | Json.num n => decide (-32799 ≤ n) && decide (n ≤ -32600)
  | _ => false

/-- One tool's schema: ordered required and optional
`(parameter name, kind)` pairs. -/
structure ToolSchema where
  required : List (String × String)
  optional : List (String × String)
  deriving DecidableEq, Repr

/-- `_validate_type(value, type_str)` from the source. -/
def _validate_type (value : PyValue) (type_str : String) : Bool :=
  if type_str = "any" then true
  else if type_str = "number" then
    isinstance_int_or_float value && !(isinstance_bool value)
  else if type_str = "string" then isinstance_str value
  else if type_str = "boolean" then isinstance_bool value
  else if type_str = "array" then isinstance_list_or_tuple value
  else if type_str = "object" then isinstance_dict value
  else true

/-- The error string appended for a missing required parameter. -/
def msgMissing (param_name tool_name : String) : String :=
  s!"Missing required parameter \x27{param_name}\x27 for {tool_name}"

/-- The error string appended for a present parameter of the wrong kind. -/
def msgWrongType (param_name tool_name param_type : String) (v : PyValue) : String :=
  let tyname := pyTypeName v
  s!"Parameter \x27{param_name}\x27 for {tool_name} must be {param_type}, got {tyname}"

/-- The `for param_name, param_type in schema["required"]` loop of
`validate_params`, collecting error strings in order. -/
def requiredErrors (tool_name : String) (params : List (String × PyValue)) :
    List (String × String) → List String
  | [] => []
  | (pname, ptype) :: rest =>
    (match params.lookup pname with
     | none => [msgMissing pname tool_name]
     | some v =>
       if _validate_type v ptype then []
       else [msgWrongType pname tool_name ptype v]) ++
    requiredErrors tool_name params rest

/-- The `for param_name, param_type in schema["optional"]` loop of
`validate_params` (wrong kind only when the parameter is present). -/
def optionalErrors (tool_name : String) (params : List (String × PyValue)) :
    List (String × String) → List String
  | [] => []
  | (pname, ptype) :: rest =>
    (match params.lookup pname with
     | none => []
     | some v =>
       if _validate_type v ptype then []
       else [msgWrongType pname tool_name ptype v]) ++
    optionalErrors tool_name params rest
def TOOL_SCHEMAS : List (String × ToolSchema) := [
  ("vice.ping", ⟨[], []⟩),
  ("vice.execution.run", ⟨[], []⟩),
  ("vice.execution.pause", ⟨[], []⟩),
  ("vice.execution.step", ⟨[], [("count", "number"), ("step_over", "boolean")]⟩),
  ("vice.registers.get", ⟨[], []⟩),
  ("vice.registers.set", ⟨[("register", "string"), ("value", "number")], []⟩),
  ("vice.memory.read", ⟨[("address", "any"), ("size", "number")], [("bank", "string")]⟩),
  ("vice.memory.write", ⟨[("address", "any"), ("data", "array")], []⟩),
  ("vice.memory.banks", ⟨[], []⟩),
  ("vice.memory.search", ⟨[("start", "any"), ("end", "any"), ("pattern", "array")], [("mask", "array"), ("max_results", "number")]⟩),
  ("vice.checkpoint.add", ⟨[("start", "any")], [("end", "any"), ("stop", "boolean"), ("load", "boolean"), ("store", "boolean"), ("exec", "boolean")]⟩),
  ("vice.checkpoint.delete", ⟨[("checkpoint_num", "number")], []⟩),
  ("vice.checkpoint.list", ⟨[], []⟩),
  ("vice.checkpoint.toggle", ⟨[("checkpoint_num", "number"), ("enabled", "boolean")], []⟩),
  ("vice.checkpoint.set_condition", ⟨[("checkpoint_num", "number"), ("condition", "string")], []⟩),
  ("vice.checkpoint.set_ignore_count", ⟨[("checkpoint_num", "number"), ("count", "number")], []⟩),
  ("vice.sprite.get", ⟨[], [("sprite", "number")]⟩),
  ("vice.sprite.set", ⟨[("sprite", "number")], [("enabled", "boolean"), ("x", "number"), ("y", "number"), ("color", "number"), ("multicolor", "boolean"), ("expand_x", "boolean"), ("expand_y", "boolean"), ("priority", "boolean"), ("multicolor0", "number"), ("multicolor1", "number"), ("pointer", "number")]⟩),
  ("vice.vicii.get_state", ⟨[], []⟩),
  ("vice.vicii.set_state", ⟨[], [("registers", "array")]⟩),
  ("vice.sid.get_state", ⟨[], []⟩),
  ("vice.sid.set_state", ⟨[], [("registers", "array")]⟩),
  ("vice.cia.get_state", ⟨[], []⟩),
  ("vice.cia.set_state", ⟨[], [("cia1_registers", "array"), ("cia2_registers", "array")]⟩),
  ("vice.disk.attach", ⟨[("unit", "number"), ("path", "string")], []⟩),
  ("vice.disk.detach", ⟨[("unit", "number")], []⟩),
  ("vice.disk.list", ⟨[("unit", "number")], []⟩),
  ("vice.disk.read_sector", ⟨[("unit", "number"), ("track", "number"), ("sector", "number")], []⟩),
  ("vice.autostart", ⟨[("path", "string")], [("program", "string"), ("run", "boolean"), ("index", "number")]⟩),
  ("vice.machine.reset", ⟨[], [("mode", "string"), ("run_after", "boolean")]⟩),
  ("vice.display.screenshot", ⟨[], [("path", "string"), ("format", "string"), ("return_base64", "boolean")]⟩),
  ("vice.display.get_dimensions", ⟨[], []⟩),
  ("vice.keyboard.type", ⟨[("text", "string")], [("petscii_upper", "boolean")]⟩),
  ("vice.keyboard.key_press", ⟨[("key", "string")], [("modifiers", "array"), ("hold_frames", "number"), ("hold_ms", "number")]⟩),
  ("vice.keyboard.key_release", ⟨[("key", "string")], [("modifiers", "array")]⟩),
  ("vice.keyboard.restore", ⟨[], [("pressed", "boolean")]⟩),
  ("vice.keyboard.matrix", ⟨[], [("key", "string"), ("row", "number"), ("col", "number"), ("pressed", "boolean"), ("hold_frames", "number"), ("hold_ms", "number")]⟩),
  ("vice.joystick.set", ⟨[], [("port", "number"), ("direction", "string"), ("fire", "boolean")]⟩),
  ("vice.disassemble", ⟨[("address", "any")], [("count", "number"), ("show_symbols", "boolean")]⟩),
  ("vice.symbols.load", ⟨[("path", "string")], [("format", "string")]⟩),
  ("vice.symbols.lookup", ⟨[], [("name", "string"), ("address", "any")]⟩),
  ("vice.watch.add", ⟨[("address", "any")], [("size", "number"), ("type", "string"), ("condition", "string")]⟩),
  ("vice.backtrace", ⟨[], [("depth", "number")]⟩),
  ("vice.run_until", ⟨[], [("address", "any"), ("cycles", "number")]⟩),
  ("vice.snapshot.save", ⟨[("name", "string")], [("description", "string"), ("include_roms", "boolean"), ("include_disks", "boolean")]⟩),
  ("vice.snapshot.load", ⟨[("name", "string")], []⟩),
  ("vice.snapshot.list", ⟨[], []⟩),
  ("vice.cycles.stopwatch", ⟨[("action", "string")], []⟩),
  ("vice.memory.fill", ⟨[("start", "any"), ("end", "any"), ("pattern", "array")], []⟩),
  ("vice.memory.compare", ⟨[("mode", "string")], [("start1", "any"), ("end1", "any"), ("start2", "any"), ("snapshot_name", "string"), ("start", "any"), ("end", "any")]⟩),
  ("vice.memory.map", ⟨[], [("start", "any"), ("end", "any"), ("granularity", "number")]⟩),
  ("vice.checkpoint.group.create", ⟨[("name", "string")], [("checkpoint_ids", "array")]⟩),
  ("vice.checkpoint.group.add", ⟨[("group", "string"), ("checkpoint_ids", "array")], []⟩),
  ("vice.checkpoint.group.toggle", ⟨[("group", "string"), ("enabled", "boolean")], []⟩),
  ("vice.checkpoint.group.list", ⟨[], []⟩),
  ("vice.checkpoint.set_auto_snapshot", ⟨[("checkpoint_id", "number"), ("snapshot_prefix", "string")], [("max_snapshots", "number"), ("include_disks", "boolean")]⟩),
  ("vice.checkpoint.clear_auto_snapshot", ⟨[("checkpoint_id", "number")], []⟩),
  ("vice.trace.start", ⟨[("output_file", "string")], [("pc_filter_start", "any"), ("pc_filter_end", "any"), ("max_instructions", "number"), ("include_registers", "boolean")]⟩),
  ("vice.trace.stop", ⟨[("trace_id", "string")], []⟩),
  ("vice.interrupt.log.start", ⟨[], [("types", "array"), ("max_entries", "number")]⟩),
  ("vice.interrupt.log.stop", ⟨[("log_id", "string")], []⟩),
  ("vice.interrupt.log.read", ⟨[("log_id", "string")], [("since_index", "number")]⟩),
  ("vice.sprite.inspect", ⟨[("sprite_number", "number")], [("format", "string")]⟩)
]

/-- `validate_params(tool_name, params)` from the source: unknown tool
names skip validation; required then optional parameters are checked in
order.  The warning logged for unexpected keys is a side channel
(`logger.warning`) and produces no error string, so it is not modelled. -/
def validate_params (tool_name : String) (params : List (String × PyValue)) :
    List String :=
  match TOOL_SCHEMAS.lookup tool_name with
  | none => []
  | some schema =>
    requiredErrors tool_name params schema.required ++
    optionalErrors tool_name params schema.optional

/-- Python `round(x, ndigits)` on exact rationals: round half to even
at `ndigits` decimal places. -/
def pyRound (x : ℚ) (ndigits : Nat) : ℚ :=
  let scale : ℚ := ((10 ^ ndigits : Nat) : ℚ)
  let y := x * scale
  let fl : ℤ := ⌊y⌋
  let frac := y - (fl : ℚ)
  let n : ℤ :=
    if frac < 1/2 then fl
    else if 1/2 < frac then fl + 1
    else if fl % 2 = 0 then fl else fl + 1
  (n : ℚ) / scale

/-- The durable record of one completed logical call.  The wall-clock
timestamp `ts` is not modelled. -/
structure LogEntry where
  tool : String
  duration_ms : ℚ
  success : Bool
  error : Option String
  error_code : Option Json
  retry_count : Nat
  fallback_used : Bool

/-- State of an `MCPReliabilityMonitor`: the in-memory `_entries` list
and the contents of the durable append-only store. -/
structure MonitorState where
  entries : List LogEntry
  persisted : List LogEntry

/-- `MCPReliabilityMonitor.record`: builds the entry (rounding the
duration to 2 decimals), appends it to the in-memory list, then
attempts the durable append.  `persist_ok` is whether the file
`open`/`write` succeeds; when it raises `OSError` the exception is
swallowed (`logger.debug`), so `record` is total either way. -/
def MCPReliabilityMonitor_record (m : MonitorState) (tool : String)
    (duration_ms : ℚ) (success : Bool) (error : Option String)
    (error_code : Option Json) (retry_count : Nat) (fallback_used : Bool)
    (persist_ok : Bool) : MonitorState :=
  let entry : LogEntry :=
    ⟨tool, pyRound duration_ms 2, success, error, error_code,
     retry_count, fallback_used⟩
  { entries := m.entries ++ [entry]
    persisted := if persist_ok then m.persisted ++ [entry] else m.persisted }

/-- Result of `MCPReliabilityMonitor.get_stats`; `failures_by_tool` is
the insertion-ordered dict built by the source's loop. -/
structure Stats where
  total_calls : Nat
  failures : Nat
  avg_latency_ms : ℚ
  failure_rate : ℚ
  failures_by_tool : List (String × Nat)

/-- `failures_by_tool[e["tool"]] = failures_by_tool.get(e["tool"], 0) + 1`
on an insertion-ordered association list. -/
def bumpTool : List (String × Nat) → String → List (String × Nat)
  | [], t => [(t, 1)]
  | (k, v) :: rest, t =>
    if k = t then (k, v + 1) :: rest else (k, v) :: bumpTool rest t

/-- `MCPReliabilityMonitor.get_stats` from the source. -/
def get_stats (m : MonitorState) : Stats :=
  let total := m.entries.length
  if total = 0 then ⟨0, 0, 0, 0, []⟩
  else
    let failures := m.entries.filter (fun e => !e.success)
    let durations := m.entries.map (fun e => e.duration_ms)
    let failures_by_tool := failures.foldl (fun acc e => bumpTool acc e.tool) []
    ⟨total, failures.length,
     pyRound (durations.sum / (total : ℚ)) 2,
     pyRound ((failures.length : ℚ) / (total : ℚ)) 4,
     failures_by_tool⟩

/-- Python `l[-n:]`: the last `n` elements, or the whole list when
`n = 0` (since `-0 == 0`). -/
def pySliceLast {α : Type} (l : List α) (n : Nat) : List α :=
  if n = 0 then l else l.drop (l.length - n)

/-- `MCPReliabilityMonitor.get_recent_failures`. -/
def get_recent_failures (m : MonitorState) (n : Nat) : List LogEntry :=
  let failures := m.entries.filter (fun e => !e.success)
  pySliceLast failures n

/-- The client's exception taxonomy.  `protocolErr`, `toolErr`,
`connectionErr`, `baseErr` and `validationErr` are the `ViceMCPError`
subclasses; `osErr` stands for `OSError`/`ConnectionError` raised by
the transport; `genericErr` stands for any other exception raised by
the transport (caught by the final `except Exception` arm), carrying
the exception class name and its `str`. -/
inductive PyExc where
  | protocolErr (msg : String) (code : Int) : PyExc
  | toolErr (msg : String) (code : Json) : PyExc
  | connectionErr (msg : String) : PyExc
  | baseErr (msg : String) : PyExc
  | validationErr (msg : String) (code : Int) : PyExc
  | osErr (msg : String) : PyExc
  | genericErr (name : String) (msg : String) : PyExc

/-- `str(exc)`: the message for `ViceMCPError` subclasses and for
`OSError`; for a generic exception, its `str`. -/
def pyExcStr : PyExc → String
  | PyExc.protocolErr m _ => m
  | PyExc.toolErr m _ => m
  | PyExc.connectionErr m => m
  | PyExc.baseErr m => m
  | PyExc.validationErr m _ => m
  | PyExc.osErr m => m
  | PyExc.genericErr _ m => m

/-- `getattr(exc, "code", None)`: only the `ViceMCPError` subclasses
have a `code` attribute (default `0` from `ViceMCPError.__init__`);
`OSError` and the generic transport exceptions have none. -/
def getattrCode : PyExc → Option Json
  | PyExc.protocolErr _ c => some (Json.num c)
  | PyExc.toolErr _ c => some c
  | PyExc.connectionErr _ => some (Json.num 0)
  | PyExc.baseErr _ => some (Json.num 0)
  | PyExc.validationErr _ c => some (Json.num c)
  | PyExc.osErr _ => none
  | PyExc.genericErr _ _ => none

/-- `isinstance(exc, ViceMCPError)`. -/
def isViceMCPError : PyExc → Bool
  | PyExc.protocolErr _ _ => true
  | PyExc.toolErr _ _ => true
  | PyExc.connectionErr _ => true
  | PyExc.baseErr _ => true
  | PyExc.validationErr _ _ => true
  | _ => false

/-- `isinstance(exc, OSError)` (`ConnectionError` is an `OSError`
subclass in Python). -/
def isOSError : PyExc → Bool
  | PyExc.osErr _ => true
  | _ => false

/-- An error produced while decoding a response
(`_parse_response`/`_unwrap_result`): a `ViceMCPProtocolError` or a
`ViceMCPToolError`. -/
inductive DecodeErr where
  | protocol (msg : String) (code : Int) : DecodeErr
  | tool (msg : String) (code : Json) : DecodeErr

/-- The body handed back by one HTTP POST, from `_call_raw`'s point of
view: either a string `json.loads` rejects (with the decode-error
text), or the JSON value it parses to. -/
inductive RespBody where
  | malformed (msg : String) : RespBody
  | parsed (j : Json) : RespBody

/-- `ViceMCPClient._parse_response`. -/
def _parse_response (body : RespBody) : Except DecodeErr Json :=
  match body with
  | RespBody.malformed m =>
    Except.error (DecodeErr.protocol s!"Invalid JSON in response: {m}" JSONRPC_PARSE_ERROR)
  | RespBody.parsed j =>
    match j with
    | Json.obj kvs => Except.ok (Json.obj kvs)
    | _ => Except.error (DecodeErr.protocol "Response is not a JSON object" JSONRPC_INVALID_REQUEST)

/-- `err.get("code", -1) if isinstance(err, dict) else -1`. -/
def errGetCode (err : Json) : Json :=
  match err with
  | Json.obj kvs => (kvs.lookup "code").getD (Json.num (-1))
  | _ => Json.num (-1)

/-- `err.get("message", str(err)) if isinstance(err, dict) else str(err)`;
a non-string `message` value is rendered with `str` (that is what the
exception's own `str` would show). -/
def errGetMessage (err : Json) : String :=
  match err with
  | Json.obj kvs =>
    match kvs.lookup "message" with
    | some (Json.str s) => s
    | some j => pyStr j
    | none => pyStr err
  | _ => pyStr err

/-- `err.get("data") if isinstance(err, dict) else None` (carried on the
exception but read by no claim, so not stored in `DecodeErr`). -/
def errGetData (err : Json) : Option Json :=
  match err with
  | Json.obj kvs => kvs.lookup "data"
  | _ => none

/-- `ViceMCPClient._unwrap_result`, with `json.loads` on an inner text
block supplied as the oracle `jloads` (`none` = `JSONDecodeError`).  A
non-string `"text"` value makes `json.loads` raise `TypeError`, which
the source also catches and answers with the raw value. -/
def _unwrap_result (data : Json) (jloads : String → Option Json) :
    Except DecodeErr Json :=
  match jsonGet data "error" with
  | some err =>
    let message := errGetMessage err
    match errGetCode err with
    | Json.num n =>
      if isProtocolCode (Json.num n) then Except.error (DecodeErr.protocol message n)
      else Except.error (DecodeErr.tool message (Json.num n))
    | c => Except.error (DecodeErr.tool message c)
  | none =>
    let result := (jsonGet data "result").getD Json.null
    match result with
    | Json.obj rkvs =>
      match rkvs.lookup "content" with
      | some content =>
        match content with
        | Json.arr [block] =>
          match block with
          | Json.obj bkvs =>
            match bkvs.lookup "type" with
            | some (Json.str "text") =>
              match (bkvs.lookup "text").getD (Json.str "") with
              | Json.str s =>
                match jloads s with
                | some j => Except.ok j
                | none => Except.ok (Json.str s)
              | j => Except.ok j
            | _ => Except.ok content
          | _ => Except.ok content
        | _ => Except.ok content
      | none => Except.ok result
    | _ => Except.ok result

/-- The body of `_call_raw`'s `try` block after the POST:
`_parse_response` then `_unwrap_result`. -/
def decodeResponse (body : RespBody) (jloads : String → Option Json) :
    Except DecodeErr Json :=
  match _parse_response body with
  | Except.error e => Except.error e
  | Except.ok data => _unwrap_result data jloads

/-- Which of the two request encodings an attempt used. -/
inductive Encoding where
  | wrapped : Encoding
  | direct : Encoding
  deriving DecidableEq, Repr

/-- What one `_http_post` does: return `(status_code, body)` or raise.
`raiseOS` is an `OSError`/`ConnectionError`; `raiseOther` is any other
exception (class name, `str`). -/
inductive TransportResult where
  | ok (status : Int) (body : RespBody) : TransportResult
  | raiseOS (msg : String) : TransportResult
  | raiseOther (name : String) (msg : String) : TransportResult

/-- Observable actions of one logical call: a payload sent on the wire
(with its attempt index, encoding, JSON-RPC request id and timeout) and
a back-off sleep of a given duration in seconds. -/
inductive CallEvent where
  | sent (attempt : Nat) (enc : Encoding) (reqId : Nat) (timeout : ℚ) : CallEvent
  | slept (d : ℚ) : CallEvent

/-- The engine's configuration slice used by `_call_raw`
(`max_retries`, `retry_delay`, `timeout` from `ViceMCPClient.__init__`). -/
structure Config where
  max_retries : Nat
  retry_delay : ℚ
  timeout : ℚ

/-- Everything one `_call_raw` invocation does: the returned value or
raised exception, the wire/sleep events in order, the `LogEntry`
values handed to `monitor.record` (durations recorded as 0 — wall
clock is not modelled), and the final `_id_counter`. -/
structure CallOutput where
  result : Except PyExc Json
  events : List CallEvent
  records : List LogEntry
  idCounter : Nat

/-- Python `s.lower()` (structurally recursive over the character
list, so that concrete traces through the generic-exception handler
evaluate). -/
def pyLower (s : String) : String := String.mk (s.data.map Char.toLower)

/-- Occurrence of `needle` in a character list: a prefix here or an
occurrence in the tail. -/
def charListContains (needle : List Char) : List Char → Bool
  | [] => needle.isEmpty
  | c :: t => needle.isPrefixOf (c :: t) || charListContains needle t

/-- Python `needle in haystack` on strings. -/
def strContains (haystack needle : String) : Bool :=
  charListContains needle.data haystack.data

/-- The `# All retries exhausted` tail of `_call_raw`: build the error
message from the last exception, record one failed `LogEntry` with
`retry_count = attempts - 1`, then re-raise a `ViceMCPError` as itself,
wrap an `OSError` in `ViceMCPConnectionError`, and otherwise raise a
generic `ViceMCPError`. -/
def exhaustedTail (tool_name : String) (attempts : Nat)
    (last_error : Option PyExc) (fallback_used : Bool) (idc : Nat)
    (events : List CallEvent) : CallOutput :=
  let error_msg := match last_error with
    | some e => pyExcStr e
    | none => "Unknown error"
  let error_code := match last_error with
    | some e => getattrCode e
    | none => none
  let entry : LogEntry :=
    ⟨tool_name, 0, false, some error_msg, error_code, attempts - 1, fallback_used⟩
  let raised : PyExc := match last_error with
    | some e =>
      if isViceMCPError e then e
      else if isOSError e then
        PyExc.connectionErr s!"Failed to connect after {attempts} attempts: {error_msg}"
      else
        PyExc.baseErr s!"Call to {tool_name} failed after {attempts} attempts: {error_msg}"
    | none =>
      PyExc.baseErr s!"Call to {tool_name} failed after {attempts} attempts: {error_msg}"
  ⟨Except.error raised, events, [entry], idc⟩

/-- One pass of `for attempt in range(self.max_retries + 1)` and the
fall-through to the exhaustion tail.  `fuel` is the number of loop
iterations left (`_call_raw` starts it at `max_retries + 1`), `attempt`
the current index, `attempts` the source's like-named local, `idc` the
client's `_id_counter`.  Building either payload draws a fresh id
(`_next_id`).  The three sleep arms of the final `except Exception`
handler are kept separate as in the source even though their delays
coincide. -/
def callRawLoop (cfg : Config) (transport : Nat → Encoding → TransportResult)
    (jloads : String → Option Json) (tool_name : String) :
    (fuel : Nat) → (attempt : Nat) → (fallback_used : Bool) →
    (last_error : Option PyExc) → (attempts : Nat) → (idc : Nat) →
    (events : List CallEvent) → CallOutput
  | 0, _, fallback_used, last_error, attempts, idc, events =>
    exhaustedTail tool_name attempts last_error fallback_used idc events
  | fuel + 1, attempt, fallback_used, last_error, _, idc, events =>
    let attempts := attempt + 1
    let current_timeout := cfg.timeout * (3/2 : ℚ) ^ attempt
    let enc := if fallback_used then Encoding.direct else Encoding.wrapped
    let reqId := idc + 1
    let idc := idc + 1
    let events := events ++ [CallEvent.sent attempt enc reqId current_timeout]
    match transport attempt enc with
    | TransportResult.ok _status body =>
      match decodeResponse body jloads with
      | Except.ok result =>
        ⟨Except.ok result, events,
         [⟨tool_name, 0, true, none, none, attempt, fallback_used⟩], idc⟩
      | Except.error (DecodeErr.protocol m c) =>
        let last_error := some (PyExc.protocolErr m c)
        if !fallback_used then
          callRawLoop cfg transport jloads tool_name fuel (attempt + 1)
            true last_error attempts idc events
        else
          let events := if attempt < cfg.max_retries
            then events ++ [CallEvent.slept (cfg.retry_delay * (2 : ℚ) ^ attempt)]
            else events
          callRawLoop cfg transport jloads tool_name fuel (attempt + 1)
            fallback_used last_error attempts idc events
      | Except.error (DecodeErr.tool m c) =>
        let entry : LogEntry :=
          ⟨tool_name, 0, false,
           (match last_error with | some e => some (pyExcStr e) | none => none),
           (match last_error with | some e => getattrCode e | none => none),
           attempt, fallback_used⟩
        ⟨Except.error (PyExc.toolErr m c), events, [entry], idc⟩
    | TransportResult.raiseOS m =>
      let last_error := some (PyExc.osErr m)
      let events := if attempt < cfg.max_retries
        then events ++ [CallEvent.slept (cfg.retry_delay * (2 : ℚ) ^ attempt)]
        else events
      callRawLoop cfg transport jloads tool_name fuel (attempt + 1)
        fallback_used last_error attempts idc events
    | TransportResult.raiseOther exc_name m =>
      let is_timeout := strContains (pyLower exc_name) "timeout" || strContains m "Timeout"
      let is_connection := strContains (pyLower exc_name) "connect" || strContains m "Connect"
      let last_error := some (PyExc.genericErr exc_name m)
      if is_timeout && attempt < cfg.max_retries then
        let events := events ++ [CallEvent.slept (cfg.retry_delay * (2 : ℚ) ^ attempt)]
        callRawLoop cfg transport jloads tool_name fuel (attempt + 1)
          fallback_used last_error attempts idc events
      else if is_connection && attempt < cfg.max_retries then
        let events := events ++ [CallEvent.slept (cfg.retry_delay * (2 : ℚ) ^ attempt)]
        callRawLoop cfg transport jloads tool_name fuel (attempt + 1)
          fallback_used last_error attempts idc events
      else if attempt < cfg.max_retries then
        let events := events ++ [CallEvent.slept (cfg.retry_delay * (2 : ℚ) ^ attempt)]
        callRawLoop cfg transport jloads tool_name fuel (attempt + 1)
          fallback_used last_error attempts idc events
      else
        exhaustedTail tool_name attempts last_error fallback_used idc events

/-- `ViceMCPClient._call_raw(tool_name, arguments)` starting from id
counter `idc`: `attempt = 0`, wrapped encoding, no last error,
`attempts = 0`, empty event trace.  The argument map only shapes the
payload bytes, which the transport oracle abstracts. -/
def _call_raw (cfg : Config) (transport : Nat → Encoding → TransportResult)
    (jloads : String → Option Json) (tool_name : String) (idc : Nat) : CallOutput :=
  callRawLoop cfg transport jloads tool_name (cfg.max_retries + 1) 0 false none 0 idc []

/-- `ViceMCPClient.__init__` sets `self._id_counter = 0`: the request-id
counter is per client instance. -/
def initial_id_counter : Nat := 0

/-- `ViceMCPClient.call`: validate client-side when enabled, raising
`ViceMCPValidationError` on a non-empty violation list (before any
network or monitor activity), else run `_call_raw`. -/
def ViceMCPClient_call (cfg : Config) (validate : Bool)
    (transport : Nat → Encoding → TransportResult)
    (jloads : String → Option Json) (tool_name : String)
    (params : List (String × PyValue)) (idc : Nat) : CallOutput :=
  if validate then
    match validate_params tool_name params with
    | [] => _call_raw cfg transport jloads tool_name idc
    | e :: rest =>
      ⟨Except.error (PyExc.validationErr
          (String.intercalate "; " (e :: rest)) JSONRPC_INVALID_PARAMS),
       [], [], idc⟩
  else _call_raw cfg transport jloads tool_name idc

-- ---------------------------------------------------------------------------
-- Shared helper lemmas
-- ---------------------------------------------------------------------------

/-- A required parameter pair whose supplied value fails the kind check
forces `requiredErrors` to be non-empty. -/
theorem requiredErrors_ne_nil {tool_name : String} {params : List (String × PyValue)}
    {pname ptype : String} {v : PyValue} (reqs : List (String × String))
    (hmem : (pname, ptype) ∈ reqs) (hp : params.lookup pname = some v)
    (hbad : _validate_type v ptype = false) :
    requiredErrors tool_name params reqs ≠ [] := by
  induction reqs with
  | nil => simp at hmem
  | cons hd tl ih =>
    obtain ⟨hn, ht⟩ := hd
    rcases List.mem_cons.mp hmem with heq | hmem2
    · obtain ⟨rfl, rfl⟩ := Prod.mk.injEq .. ▸ heq
      simp only [requiredErrors, hp, hbad]
      simp
    · intro hnil
      have := List.append_eq_nil.mp (by simpa [requiredErrors] using hnil)
      exact ih hmem2 this.2

/-- An optional parameter pair whose supplied value fails the kind check
forces `optionalErrors` to be non-empty. -/
theorem optionalErrors_ne_nil {tool_name : String} {params : List (String × PyValue)}
    {pname ptype : String} {v : PyValue} (opts : List (String × String))
    (hmem : (pname, ptype) ∈ opts) (hp : params.lookup pname = some v)
    (hbad : _validate_type v ptype = false) :
    optionalErrors tool_name params opts ≠ [] := by
  induction opts with
  | nil => simp at hmem
  | cons hd tl ih =>
    obtain ⟨hn, ht⟩ := hd
    rcases List.mem_cons.mp hmem with heq | hmem2
    · obtain ⟨rfl, rfl⟩ := Prod.mk.injEq .. ▸ heq
      simp only [optionalErrors, hp, hbad]
      simp
    · intro hnil
      have := List.append_eq_nil.mp (by simpa [optionalErrors] using hnil)
      exact ih hmem2 this.2

/-- `List.filter` over `List.replicate`. -/
theorem filter_replicate_helper {α : Type} (p : α → Bool) (n : Nat) (a : α) :
    (List.replicate n a).filter p = if p a then List.replicate n a else [] := by
  induction n with
  | zero => simp
  | succ k ih =>
    by_cases h : p a
    · simp [List.replicate_succ, List.filter_cons, h, ih]
    · simp only [Bool.not_eq_true] at h
      simp [List.replicate_succ, List.filter_cons, h, ih]

/-- Folding `bumpTool` over entries that all name tool `t`, starting
from a singleton count for `t`. -/
theorem foldl_bumpTool_replicate (t : String) (e : LogEntry) (he : e.tool = t) :
    ∀ (M k : Nat),
    (List.replicate M e).foldl (fun acc x => bumpTool acc x.tool) [(t, k)] = [(t, k + M)] := by
  intro M
  induction M with
  | zero => intro k; simp
  | succ j ih =>
    intro k
    have step : bumpTool [(t, k)] e.tool = [(t, k + 1)] := by
      simp [bumpTool, he]
    calc (List.replicate (j + 1) e).foldl (fun acc x => bumpTool acc x.tool) [(t, k)]
        = (List.replicate j e).foldl (fun acc x => bumpTool acc x.tool) [(t, k + 1)] := by
          simp [List.replicate_succ, step]
      _ = [(t, k + 1 + j)] := ih (k + 1)
      _ = [(t, k + (j + 1))] := by ring_nf

-- ---------------------------------------------------------------------------
-- C6
-- ---------------------------------------------------------------------------

/-- C6: a boolean value is never a valid `number`: `_validate_type`
rejects it, so a boolean supplied for a required or optional parameter
declared `number` in a registered schema always yields a non-empty
violation list from `validate_params`. -/
theorem C6_boolean_never_number (b : Bool) (tool : String) (schema : ToolSchema)
    (pname : String) (params : List (String × PyValue))
    (hs : TOOL_SCHEMAS.lookup tool = some schema)
    (hmem : (pname, "number") ∈ schema.required ∨ (pname, "number") ∈ schema.optional)
    (hp : params.lookup pname = some (PyValue.vbool b)) :
    _validate_type (PyValue.vbool b) "number" = false ∧
    validate_params tool params ≠ [] := by
  constructor
  · rfl
  · have hbad : _validate_type (PyValue.vbool b) "number" = false := rfl
    simp only [validate_params, hs]
    rcases hmem with hreq | hopt
    · intro hnil
      have := List.append_eq_nil.mp hnil
      exact requiredErrors_ne_nil schema.required hreq hp hbad this.1
    · intro hnil
      have := List.append_eq_nil.mp hnil
      exact optionalErrors_ne_nil schema.optional hopt hp hbad this.2

/-- Witness for C6 at `vice.registers.set` with `value = True`. -/
theorem C6_boolean_never_number_witness :
    _validate_type (PyValue.vbool true) "number" = false ∧
    validate_params "vice.registers.set"
      [("register", PyValue.vstr "A"), ("value", PyValue.vbool true)] ≠ [] :=
  C6_boolean_never_number true "vice.registers.set"
    ⟨[("register", "string"), ("value", "number")], []⟩ "value"
    [("register", PyValue.vstr "A"), ("value", PyValue.vbool true)]
    (by rfl) (Or.inl (by simp)) (by rfl)

-- ---------------------------------------------------------------------------
-- C9
-- ---------------------------------------------------------------------------

/-- C9: `record` appends the entry to the in-memory ordered log
unconditionally — the appended list is the same whether or not the
durable append succeeds (a persistence failure is swallowed inside
`record`, which is total and raises nothing either way) — and the entry
is visible to subsequent `get_stats` (the total grows by one) and, when
it is a failure, to `get_recent_failures`. -/
theorem C9_record_unconditional (m : MonitorState) (tool : String) (dur : ℚ)
    (success : Bool) (err : Option String) (ec : Option Json) (rc : Nat)
    (fb : Bool) (persist_ok : Bool) :
    (MCPReliabilityMonitor_record m tool dur success err ec rc fb persist_ok).entries
      = m.entries ++ [⟨tool, pyRound dur 2, success, err, ec, rc, fb⟩] ∧
    (MCPReliabilityMonitor_record m tool dur success err ec rc fb false).entries
      = (MCPReliabilityMonitor_record m tool dur success err ec rc fb true).entries ∧
    (get_stats (MCPReliabilityMonitor_record m tool dur success err ec rc fb persist_ok)).total_calls
      = m.entries.length + 1 ∧
    (success = false →
      (⟨tool, pyRound dur 2, success, err, ec, rc, fb⟩ : LogEntry) ∈
        get_recent_failures
          (MCPReliabilityMonitor_record m tool dur success err ec rc fb persist_ok)
          (m.entries.length + 1)) := by
  refine ⟨rfl, rfl, ?_, ?_⟩
  · simp [MCPReliabilityMonitor_record, get_stats]
  · intro hf
    subst hf
    simp only [MCPReliabilityMonitor_record, get_recent_failures, pySliceLast,
      List.filter_append]
    have hle : ((m.entries.filter fun e => !e.success) ++
        (List.filter (fun (e : LogEntry) => !e.success)
          [(⟨tool, pyRound dur 2, false, err, ec, rc, fb⟩ : LogEntry)])).length
        ≤ m.entries.length + 1 := by
      simp only [List.length_append]
      have h1 : (m.entries.filter fun e => !e.success).length ≤ m.entries.length :=
        List.length_filter_le _ _
      have h2 : (List.filter (fun (e : LogEntry) => !e.success)
          [(⟨tool, pyRound dur 2, false, err, ec, rc, fb⟩ : LogEntry)]).length ≤ 1 :=
        List.length_filter_le _ _
      omega
    rw [if_neg (by omega : ¬ m.entries.length + 1 = 0)]
    rw [Nat.sub_eq_zero_of_le hle, List.drop_zero]
    simp

/-- Witness for C9: after recording a failed entry into an empty
monitor with the durable append failing, the entry is in
`get_recent_failures`. -/
theorem C9_record_unconditional_witness :
    (⟨"t", pyRound 0 2, false, some "boom", none, 0, false⟩ : LogEntry) ∈
      get_recent_failures
        (MCPReliabilityMonitor_record ⟨[], []⟩ "t" 0 false (some "boom") none 0 false false)
        1 :=
  (C9_record_unconditional ⟨[], []⟩ "t" 0 false (some "boom") none 0 false false).2.2.2 rfl

-- ---------------------------------------------------------------------------
-- C7 (corrected: the failure rate is rounded to 4 decimal places)
-- ---------------------------------------------------------------------------

/-- Counterexample to C7 as stated: after 2 successes and 1 failure for
the same tool, `failures_by_tool["t"]` is indeed 1, but `failure_rate`
is `round(1/3, 4) = 0.3333`, which differs from `M/(N+M) = 1/3`. -/
theorem C7_counterexample :
    ((get_stats ⟨[⟨"t", 0, true, none, none, 0, false⟩,
                  ⟨"t", 0, true, none, none, 0, false⟩,
                  ⟨"t", 0, false, none, none, 0, false⟩], []⟩).failures_by_tool.lookup "t"
        = some 1) ∧
    (get_stats ⟨[⟨"t", 0, true, none, none, 0, false⟩,
                 ⟨"t", 0, true, none, none, 0, false⟩,
                 ⟨"t", 0, false, none, none, 0, false⟩], []⟩).failure_rate = 3333 / 10000 ∧
    (get_stats ⟨[⟨"t", 0, true, none, none, 0, false⟩,
                 ⟨"t", 0, true, none, none, 0, false⟩,
                 ⟨"t", 0, false, none, none, 0, false⟩], []⟩).failure_rate ≠ (1 : ℚ) / 3 := by
  refine ⟨by simp [get_stats, bumpTool], ?_, ?_⟩
  · simp only [get_stats, List.filter, List.length, List.map, bumpTool]
    norm_num [pyRound]
  · simp only [get_stats, List.filter, List.length, List.map, bumpTool]
    norm_num [pyRound]

/-- C7 as amended: `get_stats` on an empty log returns
`total_calls = 0` and `failure_rate = 0` without failing, and after `N`
successes and `M ≥ 1` failures for the same tool,
`failures_by_tool[tool] = M` while `failure_rate` is `M/(N+M)` rounded
to 4 decimal places (equal to `M/(N+M)` itself only when that ratio has
at most 4 decimal digits). -/
theorem C7_stats_rounded (t : String) (N M : Nat) (p : List LogEntry)
    (sd fd : ℚ) (er : Option String) (ec : Option Json) (rc : Nat) (fb : Bool)
    (hM : 1 ≤ M) :
    (get_stats ⟨[], p⟩).total_calls = 0 ∧
    (get_stats ⟨[], p⟩).failure_rate = 0 ∧
    (get_stats ⟨List.replicate N (⟨t, sd, true, none, none, 0, false⟩ : LogEntry) ++
                List.replicate M (⟨t, fd, false, er, ec, rc, fb⟩ : LogEntry), p⟩).failures_by_tool.lookup t
      = some M ∧
    (get_stats ⟨List.replicate N (⟨t, sd, true, none, none, 0, false⟩ : LogEntry) ++
                List.replicate M (⟨t, fd, false, er, ec, rc, fb⟩ : LogEntry), p⟩).failure_rate
      = pyRound ((M : ℚ) / ((N + M : Nat) : ℚ)) 4 := by
  obtain ⟨j, rfl⟩ : ∃ j, M = j + 1 := ⟨M - 1, by omega⟩
  have hfil : (List.replicate N (⟨t, sd, true, none, none, 0, false⟩ : LogEntry) ++
      List.replicate (j + 1) (⟨t, fd, false, er, ec, rc, fb⟩ : LogEntry)).filter
        (fun e => !e.success)
      = List.replicate (j + 1) (⟨t, fd, false, er, ec, rc, fb⟩ : LogEntry) := by
    rw [List.filter_append, filter_replicate_helper, filter_replicate_helper]
    simp
  have hlen : (List.replicate N (⟨t, sd, true, none, none, 0, false⟩ : LogEntry) ++
      List.replicate (j + 1) (⟨t, fd, false, er, ec, rc, fb⟩ : LogEntry)).length
      = N + (j + 1) := by simp
  refine ⟨rfl, rfl, ?_, ?_⟩
  · simp only [get_stats, hlen, hfil]
    rw [if_neg (by omega : ¬ N + (j + 1) = 0)]
    have : (List.replicate (j + 1) (⟨t, fd, false, er, ec, rc, fb⟩ : LogEntry)).foldl
        (fun acc x => bumpTool acc x.tool) [] = [(t, j + 1)] := by
      rw [List.replicate_succ]
      simp only [List.foldl_cons]
      have h0 : bumpTool [] (⟨t, fd, false, er, ec, rc, fb⟩ : LogEntry).tool = [(t, 1)] := rfl
      rw [h0, foldl_bumpTool_replicate t _ rfl j 1]
      ring_nf
    simp [this]
  · simp only [get_stats, hlen, hfil]
    rw [if_neg (by omega : ¬ N + (j + 1) = 0)]
    simp [List.length_replicate]

/-- Witness for C7 at `N = 2`, `M = 1`. -/
theorem C7_stats_rounded_witness :
    (get_stats ⟨List.replicate 2 (⟨"t", 0, true, none, none, 0, false⟩ : LogEntry) ++
                List.replicate 1 (⟨"t", 0, false, none, none, 0, false⟩ : LogEntry), []⟩).failures_by_tool.lookup "t"
      = some 1 :=
  (C7_stats_rounded "t" 2 1 [] 0 0 none none 0 false (by omega)).2.2.1

-- ---------------------------------------------------------------------------
-- Concrete fixtures used by counterexamples and witnesses
-- ---------------------------------------------------------------------------

/-- A `json.loads` oracle for inner text blocks that always fails to
parse (irrelevant to the scenarios below). -/
def jloadsNone : String → Option Json := fun _ => none

/-- The default configuration: `max_retries = 3`, `retry_delay = 0.5`,
`timeout = 10.0`. -/
def defaultConfig : Config := ⟨3, 1/2, 10⟩

/-- A response body carrying a protocol-band JSON-RPC error
(`-32601`, method not found). -/
def protoErrBody : RespBody :=
  RespBody.parsed (Json.obj [("error",
    Json.obj [("code", Json.num (-32601)), ("message", Json.str "no method")])])

/-- A response body carrying a successful result. -/
def okResultBody : RespBody :=
  RespBody.parsed (Json.obj [("result", Json.num 42)])

/-- A response body carrying a tool-level error (code `-1`, outside the
protocol band). -/
def toolErrBody : RespBody :=
  RespBody.parsed (Json.obj [("error",
    Json.obj [("code", Json.num (-1)), ("message", Json.str "bad args")])])

/-- A transport that answers the first attempt with the protocol-band
error and every later attempt with the successful result. -/
def transportProtoThenOk : Nat → Encoding → TransportResult := fun k _ =>
  if k = 0 then TransportResult.ok 200 protoErrBody
  else TransportResult.ok 200 okResultBody

/-- A transport that always answers with the tool-level error. -/
def transportToolErr : Nat → Encoding → TransportResult := fun _ _ =>
  TransportResult.ok 200 toolErrBody

/-- A transport that always raises a connection error. -/
def transportConnRefused : Nat → Encoding → TransportResult := fun _ _ =>
  TransportResult.raiseOS "conn refused"

/-- A transport that always answers with the protocol-band error. -/
def transportProtoAlways : Nat → Encoding → TransportResult := fun _ _ =>
  TransportResult.ok 200 protoErrBody

-- ---------------------------------------------------------------------------
-- C1 (corrected: nothing is recorded by the monitor on a validation
-- failure)
-- ---------------------------------------------------------------------------

/-- Counterexample to C1 as stated: calling `vice.registers.set`
without its required `value` parameter (validation enabled) raises
`ViceMCPValidationError` before any network attempt, but the monitor
records nothing at all — there is no synthetic failed `LogEntry`. -/
theorem C1_counterexample :
    validate_params "vice.registers.set" [("register", PyValue.vstr "A")]
      = [msgMissing "value" "vice.registers.set"] ∧
    (ViceMCPClient_call defaultConfig true transportConnRefused jloadsNone
        "vice.registers.set" [("register", PyValue.vstr "A")] 0).result
      = Except.error (PyExc.validationErr
          (msgMissing "value" "vice.registers.set") JSONRPC_INVALID_PARAMS) ∧
    (ViceMCPClient_call defaultConfig true transportConnRefused jloadsNone
        "vice.registers.set" [("register", PyValue.vstr "A")] 0).records = [] ∧
    (ViceMCPClient_call defaultConfig true transportConnRefused jloadsNone
        "vice.registers.set" [("register", PyValue.vstr "A")] 0).events = [] :=
  ⟨rfl, rfl, rfl, rfl⟩

/-- C1 as amended: with validation enabled and a non-empty violation
list, the call aborts before any network attempt with a
`ViceMCPValidationError` joining the violations, no retry and no wire
or sleep event occurs, the id counter is untouched — and the monitor
records nothing (no `LogEntry` at all, synthetic or otherwise). -/
theorem C1_validation_aborts_unrecorded (cfg : Config)
    (transport : Nat → Encoding → TransportResult) (jloads : String → Option Json)
    (tool : String) (params : List (String × PyValue)) (idc : Nat)
    (h : validate_params tool params ≠ []) :
    (ViceMCPClient_call cfg true transport jloads tool params idc).result
      = Except.error (PyExc.validationErr
          (String.intercalate "; " (validate_params tool params)) JSONRPC_INVALID_PARAMS) ∧
    (ViceMCPClient_call cfg true transport jloads tool params idc).records = [] ∧
    (ViceMCPClient_call cfg true transport jloads tool params idc).events = [] ∧
    (ViceMCPClient_call cfg true transport jloads tool params idc).idCounter = idc := by
  cases hv : validate_params tool params with
  | nil => exact absurd hv h
  | cons e rest => simp [ViceMCPClient_call, hv]

/-- Witness for C1's amended theorem at a concrete invalid call. -/
theorem C1_validation_aborts_unrecorded_witness :
    (ViceMCPClient_call defaultConfig true transportConnRefused jloadsNone
        "vice.registers.set" [("register", PyValue.vstr "A")] 0).records = [] :=
  (C1_validation_aborts_unrecorded defaultConfig transportConnRefused jloadsNone
    "vice.registers.set" [("register", PyValue.vstr "A")] 0
    (by
      rw [show validate_params "vice.registers.set" [("register", PyValue.vstr "A")]
          = [msgMissing "value" "vice.registers.set"] from rfl]
      simp)).2.1

-- ---------------------------------------------------------------------------
-- C2: protocol error then success on the direct encoding
-- ---------------------------------------------------------------------------

/-- C2: when the first (wrapped) attempt fails with a protocol-band
error and the second (direct) attempt succeeds, the call returns the
decoded result, records exactly one `LogEntry` with
`fallback_used = true` and `retry_count = 1`, and the event trace shows
the two sends with no sleep between them (the encoding switch retries
immediately). -/
theorem C2_fallback_immediate (cfg : Config)
    (transport : Nat → Encoding → TransportResult) (jloads : String → Option Json)
    (tool : String) (idc : Nat) (st0 st1 : Int) (b0 b1 : RespBody)
    (m : String) (c : Int) (v : Json)
    (hmr : 1 ≤ cfg.max_retries)
    (ht0 : transport 0 Encoding.wrapped = TransportResult.ok st0 b0)
    (hd0 : decodeResponse b0 jloads = Except.error (DecodeErr.protocol m c))
    (ht1 : transport 1 Encoding.direct = TransportResult.ok st1 b1)
    (hd1 : decodeResponse b1 jloads = Except.ok v) :
    _call_raw cfg transport jloads tool idc =
      ⟨Except.ok v,
       [CallEvent.sent 0 Encoding.wrapped (idc + 1) (cfg.timeout * (3/2 : ℚ) ^ 0),
        CallEvent.sent 1 Encoding.direct (idc + 2) (cfg.timeout * (3/2 : ℚ) ^ 1)],
       [⟨tool, 0, true, none, none, 1, true⟩], idc + 2⟩ := by
  obtain ⟨k, hk⟩ : ∃ k, cfg.max_retries = k + 1 := ⟨cfg.max_retries - 1, by omega⟩
  simp only [_call_raw, hk]
  simp [callRawLoop, ht0, hd0, ht1, hd1]

/-- Witness for C2 with the concrete fixtures. -/
theorem C2_fallback_immediate_witness :
    _call_raw defaultConfig transportProtoThenOk jloadsNone "vice.ping" 0 =
      ⟨Except.ok (Json.num 42),
       [CallEvent.sent 0 Encoding.wrapped 1 (10 * (3/2 : ℚ) ^ 0),
        CallEvent.sent 1 Encoding.direct 2 (10 * (3/2 : ℚ) ^ 1)],
       [⟨"vice.ping", 0, true, none, none, 1, true⟩], 2⟩ :=
  C2_fallback_immediate defaultConfig transportProtoThenOk jloadsNone "vice.ping" 0
    200 200 protoErrBody okResultBody "no method" (-32601) (Json.num 42)
    (by decide) rfl rfl rfl rfl

-- ---------------------------------------------------------------------------
-- C3: tool-level errors abort immediately
-- ---------------------------------------------------------------------------

/-- C3: when the first response decodes to a tool-level error (code
outside the protocol band), the call raises it immediately after
attempt 0 — one send, no sleep, no further attempt — and exactly one
`LogEntry` with `success = false` and `retry_count = 0` is recorded. -/
theorem C3_tool_error_terminal (cfg : Config)
    (transport : Nat → Encoding → TransportResult) (jloads : String → Option Json)
    (tool : String) (idc : Nat) (st0 : Int) (b0 : RespBody) (m : String) (c : Json)
    (ht0 : transport 0 Encoding.wrapped = TransportResult.ok st0 b0)
    (hd0 : decodeResponse b0 jloads = Except.error (DecodeErr.tool m c)) :
    _call_raw cfg transport jloads tool idc =
      ⟨Except.error (PyExc.toolErr m c),
       [CallEvent.sent 0 Encoding.wrapped (idc + 1) (cfg.timeout * (3/2 : ℚ) ^ 0)],
       [⟨tool, 0, false, none, none, 0, false⟩], idc + 1⟩ := by
  simp [_call_raw, callRawLoop, ht0, hd0]

/-- Witness for C3 with the concrete fixtures. -/
theorem C3_tool_error_terminal_witness :
    _call_raw defaultConfig transportToolErr jloadsNone "vice.ping" 0 =
      ⟨Except.error (PyExc.toolErr "bad args" (Json.num (-1))),
       [CallEvent.sent 0 Encoding.wrapped 1 (10 * (3/2 : ℚ) ^ 0)],
       [⟨"vice.ping", 0, false, none, none, 0, false⟩], 1⟩ :=
  C3_tool_error_terminal defaultConfig transportToolErr jloadsNone "vice.ping" 0
    200 toolErrBody "bad args" (Json.num (-1)) rfl rfl

-- ---------------------------------------------------------------------------
-- C10: a first-attempt tool error is logged with error = None
-- ---------------------------------------------------------------------------

/-- C10: when a `ViceMCPToolError` arises on the very first attempt
(no earlier protocol or transport failure), the failed `LogEntry` is
built from the still-unset `last_error`, so its `error` and
`error_code` fields are both `None` — the tool error's own message and
code never reach the log. -/
theorem C10_tool_error_unlogged_fields (cfg : Config)
    (transport : Nat → Encoding → TransportResult) (jloads : String → Option Json)
    (tool : String) (idc : Nat) (st0 : Int) (b0 : RespBody) (m : String) (c : Json)
    (ht0 : transport 0 Encoding.wrapped = TransportResult.ok st0 b0)
    (hd0 : decodeResponse b0 jloads = Except.error (DecodeErr.tool m c)) :
    (_call_raw cfg transport jloads tool idc).records =
      [⟨tool, 0, false, none, none, 0, false⟩] ∧
    (_call_raw cfg transport jloads tool idc).result =
      Except.error (PyExc.toolErr m c) := by
  constructor <;> simp [_call_raw, callRawLoop, ht0, hd0]

/-- Witness for C10 with the concrete fixtures. -/
theorem C10_tool_error_unlogged_fields_witness :
    (_call_raw defaultConfig transportToolErr jloadsNone "vice.ping" 0).records =
      [⟨"vice.ping", 0, false, none, none, 0, false⟩] ∧
    (_call_raw defaultConfig transportToolErr jloadsNone "vice.ping" 0).result =
      Except.error (PyExc.toolErr "bad args" (Json.num (-1))) :=
  C10_tool_error_unlogged_fields defaultConfig transportToolErr jloadsNone "vice.ping" 0
    200 toolErrBody "bad args" (Json.num (-1)) rfl rfl

-- ---------------------------------------------------------------------------
-- C4: connection errors exhaust the budget with growing timeouts
-- ---------------------------------------------------------------------------

/-- C4: against a transport that raises a connection error on every
attempt, with `max_retries = 3`, exactly 4 attempts are sent, attempt
`k` uses timeout `baseTimeout * 1.5 ^ k` (strictly growing when the
base timeout is positive), and the final raised error is a
`ViceMCPConnectionError` whose message wraps the last transport
failure's message; one failed `LogEntry` with `retry_count = 3` is
recorded. -/
theorem C4_connection_exhaustion (rd tmo : ℚ)
    (transport : Nat → Encoding → TransportResult) (jloads : String → Option Json)
    (tool : String) (idc : Nat) (msg : Nat → String)
    (htmo : 0 < tmo)
    (ht : ∀ k enc, transport k enc = TransportResult.raiseOS (msg k)) :
    _call_raw ⟨3, rd, tmo⟩ transport jloads tool idc =
      ⟨Except.error (PyExc.connectionErr
          s!"Failed to connect after {(4 : Nat)} attempts: {msg 3}"),
       [CallEvent.sent 0 Encoding.wrapped (idc + 1) (tmo * (3/2 : ℚ) ^ 0),
        CallEvent.slept (rd * (2 : ℚ) ^ 0),
        CallEvent.sent 1 Encoding.wrapped (idc + 2) (tmo * (3/2 : ℚ) ^ 1),
        CallEvent.slept (rd * (2 : ℚ) ^ 1),
        CallEvent.sent 2 Encoding.wrapped (idc + 3) (tmo * (3/2 : ℚ) ^ 2),
        CallEvent.slept (rd * (2 : ℚ) ^ 2),
        CallEvent.sent 3 Encoding.wrapped (idc + 4) (tmo * (3/2 : ℚ) ^ 3)],
       [⟨tool, 0, false, some (msg 3), none, 3, false⟩], idc + 4⟩ ∧
    tmo * (3/2 : ℚ) ^ 0 < tmo * (3/2 : ℚ) ^ 1 ∧
    tmo * (3/2 : ℚ) ^ 1 < tmo * (3/2 : ℚ) ^ 2 ∧
    tmo * (3/2 : ℚ) ^ 2 < tmo * (3/2 : ℚ) ^ 3 := by
  refine ⟨?_, ?_, ?_, ?_⟩
  · simp [_call_raw, callRawLoop, ht, exhaustedTail, isViceMCPError, isOSError,
      pyExcStr, getattrCode]
  all_goals
    norm_num [pow_succ]
    nlinarith [htmo]

/-- Witness for C4 with the concrete fixtures. -/
theorem C4_connection_exhaustion_witness :
    _call_raw ⟨3, 1/2, 10⟩ transportConnRefused jloadsNone "vice.ping" 0 =
      ⟨Except.error (PyExc.connectionErr
          "Failed to connect after 4 attempts: conn refused"),
       [CallEvent.sent 0 Encoding.wrapped 1 (10 * (3/2 : ℚ) ^ 0),
        CallEvent.slept ((1/2 : ℚ) * (2 : ℚ) ^ 0),
        CallEvent.sent 1 Encoding.wrapped 2 (10 * (3/2 : ℚ) ^ 1),
        CallEvent.slept ((1/2 : ℚ) * (2 : ℚ) ^ 1),
        CallEvent.sent 2 Encoding.wrapped 3 (10 * (3/2 : ℚ) ^ 2),
        CallEvent.slept ((1/2 : ℚ) * (2 : ℚ) ^ 2),
        CallEvent.sent 3 Encoding.wrapped 4 (10 * (3/2 : ℚ) ^ 3)],
       [⟨"vice.ping", 0, false, some "conn refused", none, 3, false⟩], 4⟩ :=
  (C4_connection_exhaustion (1/2) 10 transportConnRefused jloadsNone "vice.ping" 0
    (fun _ => "conn refused") (by norm_num) (fun _ _ => rfl)).1

-- ---------------------------------------------------------------------------
-- C5 (corrected: a final protocol failure is re-raised as itself, not
-- converted into a generic exhaustion error)
-- ---------------------------------------------------------------------------

/-- Whether a raised outcome is the generic exhaustion `ViceMCPError`
or the connection-class `ViceMCPConnectionError` — the only two shapes
the claim allows at exhaustion. -/
def isGenericExhaustOrConn : Except PyExc Json → Bool
  | Except.error (PyExc.baseErr _) => true
  | Except.error (PyExc.connectionErr _) => true
  | _ => false

/-- Inner-loop lemma: once the encoding has switched (`fallback_used =
true`), against a transport whose every response decodes to a
protocol-band error, the loop runs out its remaining budget and the
exhaustion tail re-raises the last protocol error as itself, recording
one failed entry with `retry_count = max_retries` and the fallback
flag. -/
theorem callRawLoop_uniform_protocol (cfg : Config)
    (transport : Nat → Encoding → TransportResult) (jloads : String → Option Json)
    (tool : String) (st : Nat → Encoding → Int) (b : Nat → Encoding → RespBody)
    (m : Nat → String) (c : Nat → Int)
    (ht : ∀ k enc, transport k enc = TransportResult.ok (st k enc) (b k enc))
    (hd : ∀ k enc, decodeResponse (b k enc) jloads
      = Except.error (DecodeErr.protocol (m k) (c k))) :
    ∀ (fuel : Nat), ∀ (a : Nat), fuel + a = cfg.max_retries + 1 → 1 ≤ fuel →
    ∀ (last : Option PyExc) (att idc : Nat) (events : List CallEvent),
    (callRawLoop cfg transport jloads tool fuel a true last att idc events).result
      = Except.error (PyExc.protocolErr (m cfg.max_retries) (c cfg.max_retries)) ∧
    (callRawLoop cfg transport jloads tool fuel a true last att idc events).records
      = [⟨tool, 0, false, some (m cfg.max_retries),
          some (Json.num (c cfg.max_retries)), cfg.max_retries, true⟩] := by
  intro fuel
  induction fuel with
  | zero => intro a hsum h1; omega
  | succ f ih =>
    intro a hsum h1 last att idc events
    by_cases hf : f = 0
    · subst hf
      have ha : a = cfg.max_retries := by omega
      subst ha
      simp [callRawLoop, ht, hd, exhaustedTail, isViceMCPError, getattrCode, pyExcStr]
    · have ha : a < cfg.max_retries := by omega
      have hstep :
          callRawLoop cfg transport jloads tool (f + 1) a true last att idc events
            = callRawLoop cfg transport jloads tool f (a + 1) true
                (some (PyExc.protocolErr (m a) (c a))) (a + 1) (idc + 1)
                ((events ++ [CallEvent.sent a Encoding.direct (idc + 1)
                    (cfg.timeout * (3/2 : ℚ) ^ a)]) ++
                 [CallEvent.slept (cfg.retry_delay * (2 : ℚ) ^ a)]) := by
        simp [callRawLoop, ht, hd, ha]
      rw [hstep]
      exact ih (a + 1) (by omega) (by omega) _ _ _ _

/-- Inner-loop lemma: against a transport that raises an `OSError` on
every attempt, the loop (never switching encodings) runs out its
budget and the exhaustion tail wraps the last message in a
`ViceMCPConnectionError`, recording one failed entry with
`retry_count = max_retries` and no fallback. -/
theorem callRawLoop_uniform_os (cfg : Config)
    (transport : Nat → Encoding → TransportResult) (jloads : String → Option Json)
    (tool : String) (mo : Nat → String)
    (ht : ∀ k enc, transport k enc = TransportResult.raiseOS (mo k)) :
    ∀ (fuel : Nat), ∀ (a : Nat), fuel + a = cfg.max_retries + 1 → 1 ≤ fuel →
    ∀ (last : Option PyExc) (att idc : Nat) (events : List CallEvent),
    (callRawLoop cfg transport jloads tool fuel a false last att idc events).result
      = Except.error (PyExc.connectionErr
          s!"Failed to connect after {cfg.max_retries + 1} attempts: {mo cfg.max_retries}") ∧
    (callRawLoop cfg transport jloads tool fuel a false last att idc events).records
      = [⟨tool, 0, false, some (mo cfg.max_retries), none, cfg.max_retries, false⟩] := by
  intro fuel
  induction fuel with
  | zero => intro a hsum h1; omega
  | succ f ih =>
    intro a hsum h1 last att idc events
    by_cases hf : f = 0
    · subst hf
      have ha : a = cfg.max_retries := by omega
      subst ha
      simp [callRawLoop, ht, exhaustedTail, isViceMCPError, isOSError, getattrCode, pyExcStr]
    · have ha : a < cfg.max_retries := by omega
      have hstep :
          callRawLoop cfg transport jloads tool (f + 1) a false last att idc events
            = callRawLoop cfg transport jloads tool f (a + 1) false
                (some (PyExc.osErr (mo a))) (a + 1) (idc + 1)
                ((events ++ [CallEvent.sent a Encoding.wrapped (idc + 1)
                    (cfg.timeout * (3/2 : ℚ) ^ a)]) ++
                 [CallEvent.slept (cfg.retry_delay * (2 : ℚ) ^ a)]) := by
        simp [callRawLoop, ht, ha]
      rw [hstep]
      exact ih (a + 1) (by omega) (by omega) _ _ _ _

/-- Counterexample to C5 as stated: with `max_retries = 0` and a
transport that always answers with a protocol-band error, the budget is
exhausted with a protocol-level (non-transport) last failure, yet the
raised error is the `ViceMCPProtocolError` itself — neither a
connection-class error nor a generic exhaustion `ViceMCPError`. -/
theorem C5_counterexample :
    (_call_raw ⟨0, 1/2, 10⟩ transportProtoAlways jloadsNone "vice.ping" 0).result
      = Except.error (PyExc.protocolErr "no method" (-32601)) ∧
    isGenericExhaustOrConn
      (_call_raw ⟨0, 1/2, 10⟩ transportProtoAlways jloadsNone "vice.ping" 0).result = false ∧
    (_call_raw ⟨0, 1/2, 10⟩ transportProtoAlways jloadsNone "vice.ping" 0).records
      = [⟨"vice.ping", 0, false, some "no method", some (Json.num (-32601)), 0, true⟩] :=
  ⟨rfl, rfl, rfl⟩

/-- The failure classes the retry loop can observe and absorb into
`last_error`: protocol errors, `OSError`-class transport failures, and
generic transport exceptions.  (Success returns, and tool errors raise,
without touching `last_error`.) -/
def isLoopFailure : PyExc → Bool
  | PyExc.protocolErr _ _ => true
  | PyExc.osErr _ => true
  | PyExc.genericErr _ _ => true
  | _ => false

/-- The shape of every terminal outcome of one logical call: exactly
one `LogEntry` is recorded, and the call either returns a decoded
value, raises a tool-level error, or is exhausted — in which case there
is a last observed failure `e` of an absorbable class such that the
single failed record carries the message and code of `e` with the final
attempt count and fallback flag, and the raised error is synthesized by
the class of `e`: a `ViceMCPError` (protocol-class) failure is re-raised
as itself, an `OSError`-class failure is wrapped in a
`ViceMCPConnectionError`, and any other failure yields the generic
exhaustion `ViceMCPError`. -/
def terminalOutcomeShape (tool : String) (out : CallOutput) : Prop :=
  out.records.length = 1 ∧
  ((∃ v, out.result = Except.ok v) ∨
   (∃ m c, out.result = Except.error (PyExc.toolErr m c)) ∨
   (∃ e attempts fb, isLoopFailure e = true ∧
      out.records
        = [⟨tool, 0, false, some (pyExcStr e), getattrCode e, attempts - 1, fb⟩] ∧
      out.result = Except.error
        (if isViceMCPError e then e
         else if isOSError e then
           PyExc.connectionErr
             s!"Failed to connect after {attempts} attempts: {pyExcStr e}"
         else
           PyExc.baseErr
             s!"Call to {tool} failed after {attempts} attempts: {pyExcStr e}")))

/-- Every run of the retry loop — over an arbitrary transport, so with
arbitrarily mixed failure classes across attempts — ends in
`terminalOutcomeShape`, provided `last_error` starts either unset with
at least one iteration to run (as `_call_raw` starts it) or holding a
failure of an absorbable class (the loop invariant). -/
theorem callRawLoop_terminal_shape (cfg : Config)
    (transport : Nat → Encoding → TransportResult) (jloads : String → Option Json)
    (tool : String) :
    ∀ (fuel : Nat), ∀ (a : Nat) (fb : Bool) (last : Option PyExc) (att idc : Nat)
      (events : List CallEvent),
    (last = none → 1 ≤ fuel) →
    (∀ e, last = some e → isLoopFailure e = true) →
    terminalOutcomeShape tool
      (callRawLoop cfg transport jloads tool fuel a fb last att idc events) := by
  intro fuel
  induction fuel with
  | zero =>
    intro a fb last att idc events hnone hlast
    cases last with
    | none => exact absurd (hnone rfl) (by omega)
    | some e =>
      exact ⟨rfl, Or.inr (Or.inr ⟨e, att, fb, hlast e rfl, rfl, rfl⟩)⟩
  | succ f ih =>
    intro a fb last att idc events hnone hlast
    cases htr : transport a (if fb then Encoding.direct else Encoding.wrapped) with
    | ok stx body =>
      cases fb with
      | true =>
        rw [if_pos rfl] at htr
        cases hdec : decodeResponse body jloads with
        | ok v =>
          have hstep :
              callRawLoop cfg transport jloads tool (f + 1) a true last att idc events
                = ⟨Except.ok v,
                   events ++ [CallEvent.sent a Encoding.direct (idc + 1)
                     (cfg.timeout * (3/2 : ℚ) ^ a)],
                   [⟨tool, 0, true, none, none, a, true⟩], idc + 1⟩ := by
            simp [callRawLoop, htr, hdec]
          rw [hstep]
          exact ⟨rfl, Or.inl ⟨v, rfl⟩⟩
        | error e =>
          cases e with
          | tool mm cc =>
            have hstep :
                callRawLoop cfg transport jloads tool (f + 1) a true last att idc events
                  = ⟨Except.error (PyExc.toolErr mm cc),
                     events ++ [CallEvent.sent a Encoding.direct (idc + 1)
                       (cfg.timeout * (3/2 : ℚ) ^ a)],
                     [⟨tool, 0, false,
                       (match last with | some e => some (pyExcStr e) | none => none),
                       (match last with | some e => getattrCode e | none => none),
                       a, true⟩], idc + 1⟩ := by
              simp [callRawLoop, htr, hdec]
              cases last <;> exact ⟨rfl, rfl⟩
            rw [hstep]
            exact ⟨rfl, Or.inr (Or.inl ⟨mm, cc, rfl⟩)⟩
          | protocol mm cc =>
            by_cases hlt : a < cfg.max_retries
            · have hstep :
                  callRawLoop cfg transport jloads tool (f + 1) a true last att idc events
                    = callRawLoop cfg transport jloads tool f (a + 1) true
                        (some (PyExc.protocolErr mm cc)) (a + 1) (idc + 1)
                        ((events ++ [CallEvent.sent a Encoding.direct (idc + 1)
                            (cfg.timeout * (3/2 : ℚ) ^ a)]) ++
                         [CallEvent.slept (cfg.retry_delay * (2 : ℚ) ^ a)]) := by
                simp [callRawLoop, htr, hdec, hlt]
              rw [hstep]
              exact ih (a + 1) true (some (PyExc.protocolErr mm cc)) (a + 1) (idc + 1) _
                (fun h => nomatch h) (fun e he => by cases he; rfl)
            · have hstep :
                  callRawLoop cfg transport jloads tool (f + 1) a true last att idc events
                    = callRawLoop cfg transport jloads tool f (a + 1) true
                        (some (PyExc.protocolErr mm cc)) (a + 1) (idc + 1)
                        (events ++ [CallEvent.sent a Encoding.direct (idc + 1)
                            (cfg.timeout * (3/2 : ℚ) ^ a)]) := by
                simp [callRawLoop, htr, hdec, hlt]
              rw [hstep]
              exact ih (a + 1) true (some (PyExc.protocolErr mm cc)) (a + 1) (idc + 1) _
                (fun h => nomatch h) (fun e he => by cases he; rfl)
      | false =>
        rw [if_neg (by simp)] at htr
        cases hdec : decodeResponse body jloads with
        | ok v =>
          have hstep :
              callRawLoop cfg transport jloads tool (f + 1) a false last att idc events
                = ⟨Except.ok v,
                   events ++ [CallEvent.sent a Encoding.wrapped (idc + 1)
                     (cfg.timeout * (3/2 : ℚ) ^ a)],
                   [⟨tool, 0, true, none, none, a, false⟩], idc + 1⟩ := by
            simp [callRawLoop, htr, hdec]
          rw [hstep]
          exact ⟨rfl, Or.inl ⟨v, rfl⟩⟩
        | error e =>
          cases e with
          | tool mm cc =>
            have hstep :
                callRawLoop cfg transport jloads tool (f + 1) a false last att idc events
                  = ⟨Except.error (PyExc.toolErr mm cc),
                     events ++ [CallEvent.sent a Encoding.wrapped (idc + 1)
                       (cfg.timeout * (3/2 : ℚ) ^ a)],
                     [⟨tool, 0, false,
                       (match last with | some e => some (pyExcStr e) | none => none),
                       (match last with | some e => getattrCode e | none => none),
                       a, false⟩], idc + 1⟩ := by
              simp [callRawLoop, htr, hdec]
              cases last <;> exact ⟨rfl, rfl⟩
            rw [hstep]
            exact ⟨rfl, Or.inr (Or.inl ⟨mm, cc, rfl⟩)⟩
          | protocol mm cc =>
            have hstep :
                callRawLoop cfg transport jloads tool (f + 1) a false last att idc events
                  = callRawLoop cfg transport jloads tool f (a + 1) true
                      (some (PyExc.protocolErr mm cc)) (a + 1) (idc + 1)
                      (events ++ [CallEvent.sent a Encoding.wrapped (idc + 1)
                          (cfg.timeout * (3/2 : ℚ) ^ a)]) := by
              simp [callRawLoop, htr, hdec]
            rw [hstep]
            exact ih (a + 1) true (some (PyExc.protocolErr mm cc)) (a + 1) (idc + 1) _
              (fun h => nomatch h) (fun e he => by cases he; rfl)
    | raiseOS mm =>
      by_cases hlt : a < cfg.max_retries
      · have hstep :
            callRawLoop cfg transport jloads tool (f + 1) a fb last att idc events
              = callRawLoop cfg transport jloads tool f (a + 1) fb
                  (some (PyExc.osErr mm)) (a + 1) (idc + 1)
                  ((events ++ [CallEvent.sent a
                      (if fb then Encoding.direct else Encoding.wrapped) (idc + 1)
                      (cfg.timeout * (3/2 : ℚ) ^ a)]) ++
                   [CallEvent.slept (cfg.retry_delay * (2 : ℚ) ^ a)]) := by
          simp [callRawLoop, htr, hlt]
        rw [hstep]
        exact ih (a + 1) fb (some (PyExc.osErr mm)) (a + 1) (idc + 1) _
          (fun h => nomatch h) (fun e he => by cases he; rfl)
      · have hstep :
            callRawLoop cfg transport jloads tool (f + 1) a fb last att idc events
              = callRawLoop cfg transport jloads tool f (a + 1) fb
                  (some (PyExc.osErr mm)) (a + 1) (idc + 1)
                  (events ++ [CallEvent.sent a
                      (if fb then Encoding.direct else Encoding.wrapped) (idc + 1)
                      (cfg.timeout * (3/2 : ℚ) ^ a)]) := by
          simp [callRawLoop, htr, hlt]
        rw [hstep]
        exact ih (a + 1) fb (some (PyExc.osErr mm)) (a + 1) (idc + 1) _
          (fun h => nomatch h) (fun e he => by cases he; rfl)
    | raiseOther nm mm =>
      by_cases hlt : a < cfg.max_retries
      · have hstep :
            callRawLoop cfg transport jloads tool (f + 1) a fb last att idc events
              = callRawLoop cfg transport jloads tool f (a + 1) fb
                  (some (PyExc.genericErr nm mm)) (a + 1) (idc + 1)
                  ((events ++ [CallEvent.sent a
                      (if fb then Encoding.direct else Encoding.wrapped) (idc + 1)
                      (cfg.timeout * (3/2 : ℚ) ^ a)]) ++
                   [CallEvent.slept (cfg.retry_delay * (2 : ℚ) ^ a)]) := by
          simp only [callRawLoop, htr]
          split_ifs with h1 h2 h3 <;> first | rfl | (exfalso; simp_all <;> omega)
        rw [hstep]
        exact ih (a + 1) fb (some (PyExc.genericErr nm mm)) (a + 1) (idc + 1) _
          (fun h => nomatch h) (fun e he => by cases he; rfl)
      · have hstep :
            callRawLoop cfg transport jloads tool (f + 1) a fb last att idc events
              = exhaustedTail tool (a + 1) (some (PyExc.genericErr nm mm)) fb (idc + 1)
                  (events ++ [CallEvent.sent a
                      (if fb then Encoding.direct else Encoding.wrapped) (idc + 1)
                      (cfg.timeout * (3/2 : ℚ) ^ a)]) := by
          simp only [callRawLoop, htr]
          split_ifs with h1 h2 h3 <;> first | rfl | (exfalso; simp_all <;> omega)
        rw [hstep]
        exact ⟨rfl, Or.inr (Or.inr ⟨PyExc.genericErr nm mm, a + 1, fb, rfl, rfl, rfl⟩)⟩

/-- A transport whose attempts fail with different classes: a
protocol-band error (attempt 0, which switches the encoding), then a
generic non-`OSError` exception, then an `OSError` — so the last
observed failure is transport-level. -/
def transportMixed : Nat → Encoding → TransportResult := fun k _ =>
  if k = 0 then TransportResult.ok 200 protoErrBody
  else if k = 1 then TransportResult.raiseOther "RequestException" "weird failure"
  else TransportResult.raiseOS "conn refused late"

/-- A transport that always raises a generic exception that is neither
an `OSError` nor timeout/connection-named. -/
def transportGenericAlways : Nat → Encoding → TransportResult := fun _ _ =>
  TransportResult.raiseOther "RequestException" "weird failure"

/-- C5 as amended: for every logical call — over an arbitrary
transport, hence with arbitrarily mixed failure classes across its
attempts — the terminal outcome is a success, a tool error, or an
exhaustion in which exactly one failed `LogEntry` with the message and
code of the last observed failure, the final attempt count and the
fallback flag is recorded, and the raised error is synthesized by the
class of the last observed failure: re-raised as itself when it is a
protocol-class `ViceMCPError` of the client itself, wrapped in a
connection-class error when it is an `OSError`-class transport failure,
and otherwise a generic exhaustion error.  The three exhaustion
classes are each pinned by a concrete run: repeated protocol errors
re-raise the last `ViceMCPProtocolError`; a mixed
protocol → generic → `OSError` run wraps the last (transport-level)
message in `ViceMCPConnectionError`; repeated generic exceptions yield
the generic exhaustion `ViceMCPError`. -/
theorem C5_exhaustion_by_class (cfg : Config)
    (transport : Nat → Encoding → TransportResult) (jloads : String → Option Json)
    (tool : String) (idc : Nat) :
    terminalOutcomeShape tool (_call_raw cfg transport jloads tool idc) ∧
    (_call_raw ⟨2, 1/2, 10⟩ transportProtoAlways jloadsNone "vice.ping" 0).result
      = Except.error (PyExc.protocolErr "no method" (-32601)) ∧
    (_call_raw ⟨2, 1/2, 10⟩ transportProtoAlways jloadsNone "vice.ping" 0).records
      = [⟨"vice.ping", 0, false, some "no method", some (Json.num (-32601)), 2, true⟩] ∧
    (_call_raw ⟨2, 1/2, 10⟩ transportMixed jloadsNone "vice.ping" 0).result
      = Except.error (PyExc.connectionErr
          "Failed to connect after 3 attempts: conn refused late") ∧
    (_call_raw ⟨2, 1/2, 10⟩ transportMixed jloadsNone "vice.ping" 0).records
      = [⟨"vice.ping", 0, false, some "conn refused late", none, 2, true⟩] ∧
    (_call_raw ⟨1, 1/2, 10⟩ transportGenericAlways jloadsNone "vice.ping" 0).result
      = Except.error (PyExc.baseErr
          "Call to vice.ping failed after 2 attempts: weird failure") ∧
    (_call_raw ⟨1, 1/2, 10⟩ transportGenericAlways jloadsNone "vice.ping" 0).records
      = [⟨"vice.ping", 0, false, some "weird failure", none, 1, false⟩] :=
  ⟨callRawLoop_terminal_shape cfg transport jloads tool (cfg.max_retries + 1) 0
      false none 0 idc [] (fun _ => by omega) (fun e he => nomatch he),
   rfl, rfl, rfl, rfl, rfl, rfl⟩

-- ---------------------------------------------------------------------------
-- C8 (corrected: request ids are unique per client instance, not per
-- process)
-- ---------------------------------------------------------------------------

/-- The JSON-RPC request ids of the payloads actually sent, in wire
order. -/
def sentIds : List CallEvent → List Nat
  | [] => []
  | CallEvent.sent _ _ i _ :: rest => i :: sentIds rest
  | CallEvent.slept _ :: rest => sentIds rest

/-- `sentIds` distributes over append. -/
theorem sentIds_append (l1 l2 : List CallEvent) :
    sentIds (l1 ++ l2) = sentIds l1 ++ sentIds l2 := by
  induction l1 with
  | nil => simp [sentIds]
  | cons hd tl ih => cases hd <;> simp [sentIds, ih]

/-- The ids `idc + 1, idc + 2, …, idc + k`, in order. -/
def consecFrom (idc : Nat) : Nat → List Nat
  | 0 => []
  | k + 1 => (idc + 1) :: consecFrom (idc + 1) k

/-- Members of `consecFrom idc k` lie in `(idc, idc + k]`. -/
theorem consecFrom_mem {x : Nat} (idc k : Nat) (hx : x ∈ consecFrom idc k) :
    idc < x ∧ x ≤ idc + k := by
  induction k generalizing idc with
  | zero => simp [consecFrom] at hx
  | succ j ih =>
    rcases List.mem_cons.mp hx with rfl | hx2
    · omega
    · have := ih (idc + 1) hx2
      omega

/-- `consecFrom idc k` is strictly increasing. -/
theorem consecFrom_pairwise (idc k : Nat) :
    List.Pairwise (· < ·) (consecFrom idc k) := by
  induction k generalizing idc with
  | zero => simp [consecFrom]
  | succ j ih =>
    refine List.Pairwise.cons ?_ (ih (idc + 1))
    intro x hx
    exact (consecFrom_mem (idc + 1) j hx).1

/-- Every run of the retry loop draws its request ids consecutively
from the incoming id counter: the ids it sends extend the trace by
`idc + 1, …, idc + k` for some `k`, and the final counter is
`idc + k`. -/
theorem callRawLoop_ids (cfg : Config)
    (transport : Nat → Encoding → TransportResult) (jloads : String → Option Json)
    (tool : String) :
    ∀ (fuel : Nat), ∀ (a : Nat) (fb : Bool) (last : Option PyExc)
      (att idc : Nat) (events : List CallEvent),
    ∃ k,
      sentIds (callRawLoop cfg transport jloads tool fuel a fb last att idc events).events
        = sentIds events ++ consecFrom idc k ∧
      (callRawLoop cfg transport jloads tool fuel a fb last att idc events).idCounter
        = idc + k := by
  intro fuel
  induction fuel with
  | zero =>
    intro a fb last att idc events
    exact ⟨0, by simp [callRawLoop, exhaustedTail, consecFrom],
           by simp [callRawLoop, exhaustedTail]⟩
  | succ f ih =>
    intro a fb last att idc events
    cases htr : transport a (if fb then Encoding.direct else Encoding.wrapped) with
    | ok stx body =>
      cases fb with
      | true =>
        rw [if_pos rfl] at htr
        cases hdec : decodeResponse body jloads with
        | ok v =>
          refine ⟨1, ?_, ?_⟩ <;>
            simp [callRawLoop, htr, hdec, sentIds_append, sentIds, consecFrom]
        | error e =>
          cases e with
          | tool mm cc =>
            refine ⟨1, ?_, ?_⟩ <;>
              simp [callRawLoop, htr, hdec, sentIds_append, sentIds, consecFrom]
          | protocol mm cc =>
            by_cases hlt : a < cfg.max_retries
            · have hstep :
                  callRawLoop cfg transport jloads tool (f + 1) a true last att idc events
                    = callRawLoop cfg transport jloads tool f (a + 1) true
                        (some (PyExc.protocolErr mm cc)) (a + 1) (idc + 1)
                        ((events ++ [CallEvent.sent a Encoding.direct (idc + 1)
                            (cfg.timeout * (3/2 : ℚ) ^ a)]) ++
                         [CallEvent.slept (cfg.retry_delay * (2 : ℚ) ^ a)]) := by
                simp [callRawLoop, htr, hdec, hlt]
              obtain ⟨k, hk1, hk2⟩ := ih (a + 1) true
                (some (PyExc.protocolErr mm cc)) (a + 1) (idc + 1)
                ((events ++ [CallEvent.sent a Encoding.direct (idc + 1)
                    (cfg.timeout * (3/2 : ℚ) ^ a)]) ++
                 [CallEvent.slept (cfg.retry_delay * (2 : ℚ) ^ a)])
              refine ⟨k + 1, ?_, ?_⟩
              · rw [hstep, hk1]
                simp [sentIds_append, sentIds, consecFrom]
              · rw [hstep, hk2]
                omega
            · have hstep :
                  callRawLoop cfg transport jloads tool (f + 1) a true last att idc events
                    = callRawLoop cfg transport jloads tool f (a + 1) true
                        (some (PyExc.protocolErr mm cc)) (a + 1) (idc + 1)
                        (events ++ [CallEvent.sent a Encoding.direct (idc + 1)
                            (cfg.timeout * (3/2 : ℚ) ^ a)]) := by
                simp [callRawLoop, htr, hdec, hlt]
              obtain ⟨k, hk1, hk2⟩ := ih (a + 1) true
                (some (PyExc.protocolErr mm cc)) (a + 1) (idc + 1)
                (events ++ [CallEvent.sent a Encoding.direct (idc + 1)
                    (cfg.timeout * (3/2 : ℚ) ^ a)])
              refine ⟨k + 1, ?_, ?_⟩
              · rw [hstep, hk1]
                simp [sentIds_append, sentIds, consecFrom]
              · rw [hstep, hk2]
                omega
      | false =>
        rw [if_neg (by simp)] at htr
        cases hdec : decodeResponse body jloads with
        | ok v =>
          refine ⟨1, ?_, ?_⟩ <;>
            simp [callRawLoop, htr, hdec, sentIds_append, sentIds, consecFrom]
        | error e =>
          cases e with
          | tool mm cc =>
            refine ⟨1, ?_, ?_⟩ <;>
              simp [callRawLoop, htr, hdec, sentIds_append, sentIds, consecFrom]
          | protocol mm cc =>
            have hstep :
                callRawLoop cfg transport jloads tool (f + 1) a false last att idc events
                  = callRawLoop cfg transport jloads tool f (a + 1) true
                      (some (PyExc.protocolErr mm cc)) (a + 1) (idc + 1)
                      (events ++ [CallEvent.sent a Encoding.wrapped (idc + 1)
                          (cfg.timeout * (3/2 : ℚ) ^ a)]) := by
              simp [callRawLoop, htr, hdec]
            obtain ⟨k, hk1, hk2⟩ := ih (a + 1) true
              (some (PyExc.protocolErr mm cc)) (a + 1) (idc + 1)
              (events ++ [CallEvent.sent a Encoding.wrapped (idc + 1)
                  (cfg.timeout * (3/2 : ℚ) ^ a)])
            refine ⟨k + 1, ?_, ?_⟩
            · rw [hstep, hk1]
              simp [sentIds_append, sentIds, consecFrom]
            · rw [hstep, hk2]
              omega
    | raiseOS mm =>
      by_cases hlt : a < cfg.max_retries
      · have hstep :
            callRawLoop cfg transport jloads tool (f + 1) a fb last att idc events
              = callRawLoop cfg transport jloads tool f (a + 1) fb
                  (some (PyExc.osErr mm)) (a + 1) (idc + 1)
                  ((events ++ [CallEvent.sent a
                      (if fb then Encoding.direct else Encoding.wrapped) (idc + 1)
                      (cfg.timeout * (3/2 : ℚ) ^ a)]) ++
                   [CallEvent.slept (cfg.retry_delay * (2 : ℚ) ^ a)]) := by
          simp [callRawLoop, htr, hlt]
        obtain ⟨k, hk1, hk2⟩ := ih (a + 1) fb (some (PyExc.osErr mm)) (a + 1) (idc + 1)
          ((events ++ [CallEvent.sent a
              (if fb then Encoding.direct else Encoding.wrapped) (idc + 1)
              (cfg.timeout * (3/2 : ℚ) ^ a)]) ++
           [CallEvent.slept (cfg.retry_delay * (2 : ℚ) ^ a)])
        refine ⟨k + 1, ?_, ?_⟩
        · rw [hstep, hk1]
          simp [sentIds_append, sentIds, consecFrom]
        · rw [hstep, hk2]
          omega
      · have hstep :
            callRawLoop cfg transport jloads tool (f + 1) a fb last att idc events
              = callRawLoop cfg transport jloads tool f (a + 1) fb
                  (some (PyExc.osErr mm)) (a + 1) (idc + 1)
                  (events ++ [CallEvent.sent a
                      (if fb then Encoding.direct else Encoding.wrapped) (idc + 1)
                      (cfg.timeout * (3/2 : ℚ) ^ a)]) := by
          simp [callRawLoop, htr, hlt]
        obtain ⟨k, hk1, hk2⟩ := ih (a + 1) fb (some (PyExc.osErr mm)) (a + 1) (idc + 1)
          (events ++ [CallEvent.sent a
              (if fb then Encoding.direct else Encoding.wrapped) (idc + 1)
              (cfg.timeout * (3/2 : ℚ) ^ a)])
        refine ⟨k + 1, ?_, ?_⟩
        · rw [hstep, hk1]
          simp [sentIds_append, sentIds, consecFrom]
        · rw [hstep, hk2]
          omega
    | raiseOther nm mm =>
      by_cases hlt : a < cfg.max_retries
      · have hstep :
            callRawLoop cfg transport jloads tool (f + 1) a fb last att idc events
              = callRawLoop cfg transport jloads tool f (a + 1) fb
                  (some (PyExc.genericErr nm mm)) (a + 1) (idc + 1)
                  ((events ++ [CallEvent.sent a
                      (if fb then Encoding.direct else Encoding.wrapped) (idc + 1)
                      (cfg.timeout * (3/2 : ℚ) ^ a)]) ++
                   [CallEvent.slept (cfg.retry_delay * (2 : ℚ) ^ a)]) := by
          simp only [callRawLoop, htr]
          split_ifs with h1 h2 h3 <;> first | rfl | (exfalso; simp_all <;> omega)
        obtain ⟨k, hk1, hk2⟩ := ih (a + 1) fb (some (PyExc.genericErr nm mm))
          (a + 1) (idc + 1)
          ((events ++ [CallEvent.sent a
              (if fb then Encoding.direct else Encoding.wrapped) (idc + 1)
              (cfg.timeout * (3/2 : ℚ) ^ a)]) ++
           [CallEvent.slept (cfg.retry_delay * (2 : ℚ) ^ a)])
        refine ⟨k + 1, ?_, ?_⟩
        · rw [hstep, hk1]
          simp [sentIds_append, sentIds, consecFrom]
        · rw [hstep, hk2]
          omega
      · have hstep :
            callRawLoop cfg transport jloads tool (f + 1) a fb last att idc events
              = exhaustedTail tool (a + 1) (some (PyExc.genericErr nm mm)) fb (idc + 1)
                  (events ++ [CallEvent.sent a
                      (if fb then Encoding.direct else Encoding.wrapped) (idc + 1)
                      (cfg.timeout * (3/2 : ℚ) ^ a)]) := by
          simp only [callRawLoop, htr]
          split_ifs with h1 h2 h3 <;> first | rfl | (exfalso; simp_all <;> omega)
        refine ⟨1, ?_, ?_⟩ <;>
          rw [hstep] <;>
          simp [exhaustedTail, sentIds_append, sentIds, consecFrom]

/-- Counterexample to C8 as stated: the id counter lives on the client
instance (`self._id_counter = 0` in `__init__`), not in the process.
Two distinct logical calls made through two freshly constructed clients
in the same process both send request id 1 — the ids are reused. -/
theorem C8_counterexample :
    sentIds (_call_raw defaultConfig transportToolErr jloadsNone
      "vice.ping" initial_id_counter).events = [1] ∧
    sentIds (_call_raw defaultConfig transportToolErr jloadsNone
      "vice.registers.get" initial_id_counter).events = [1] :=
  ⟨rfl, rfl⟩

/-- C8 as amended: request ids are pairwise unique per client instance.
Within one call the sent ids are strictly increasing, each is above the
client's incoming counter and at most its final counter, and a
subsequent call on the same client (resuming from the final counter)
uses ids disjoint from the first call's; distinct client instances
start from the same initial counter and may reuse ids. -/
theorem C8_ids_unique_per_client (cfg : Config)
    (transport : Nat → Encoding → TransportResult) (jloads : String → Option Json)
    (tool tool2 : String) (idc : Nat) :
    List.Pairwise (· < ·)
      (sentIds (_call_raw cfg transport jloads tool idc).events) ∧
    (∀ i ∈ sentIds (_call_raw cfg transport jloads tool idc).events,
      idc < i ∧ i ≤ (_call_raw cfg transport jloads tool idc).idCounter) ∧
    (∀ i ∈ sentIds (_call_raw cfg transport jloads tool idc).events,
      ∀ j ∈ sentIds (_call_raw cfg transport jloads tool2
          (_call_raw cfg transport jloads tool idc).idCounter).events,
        i ≠ j) := by
  obtain ⟨k, hk1, hk2⟩ := callRawLoop_ids cfg transport jloads tool
    (cfg.max_retries + 1) 0 false none 0 idc []
  obtain ⟨k2, hj1, hj2⟩ := callRawLoop_ids cfg transport jloads tool2
    (cfg.max_retries + 1) 0 false none 0
    (_call_raw cfg transport jloads tool idc).idCounter []
  have hids : sentIds (_call_raw cfg transport jloads tool idc).events
      = consecFrom idc k := by
    simpa [_call_raw, sentIds] using hk1
  have hctr : (_call_raw cfg transport jloads tool idc).idCounter = idc + k := hk2
  have hids2 : sentIds (_call_raw cfg transport jloads tool2
      (_call_raw cfg transport jloads tool idc).idCounter).events
      = consecFrom ((_call_raw cfg transport jloads tool idc).idCounter) k2 := by
    simpa [_call_raw, sentIds] using hj1
  refine ⟨?_, ?_, ?_⟩
  · rw [hids]
    exact consecFrom_pairwise idc k
  · intro i hi
    rw [hids] at hi
    have := consecFrom_mem idc k hi
    omega
  · intro i hi j hj
    rw [hids] at hi
    rw [hids2] at hj
    have h1 := consecFrom_mem idc k hi
    have h2 := consecFrom_mem _ k2 hj
    omega

/-- Witness for C8's amended theorem at a concrete client history. -/
theorem C8_ids_unique_per_client_witness :
    List.Pairwise (· < ·)
      (sentIds (_call_raw defaultConfig transportProtoThenOk jloadsNone
        "vice.ping" 0).events) :=
  (C8_ids_unique_per_client defaultConfig transportProtoThenOk jloadsNone
    "vice.ping" "vice.registers.get" 0).1
